import Mathlib

/-
Shallow embedding of the Hinglishly text-analysis app (src/app.py).
The embedded parts are the ones the claims speak about: the decoded JSON
response shape, the analyze-button handler with its exception fallback
(app.py lines 314-348), the per-read defaulting of result fields at the
display sites (lines 357-435), the error-branch dispatch (lines 369-374),
the rewrite-button handlers (lines 461-502) and the session cache of the
three rewrite slots (lines 307-318, 451-456).
-/

set_option autoImplicit false

namespace Hinglishly

/-- JSON-like values as decoded from the completion endpoint response
(a Python dict produced by the JSON output parser). -/
inductive JVal where
  | jstr : String → JVal
  | jnum : Int → JVal
  | jbool : Bool → JVal
  | jlist : List JVal → JVal

/-- A decoded response mapping: a Python dict of string keys to JSON values. -/
abbrev RespMap := List (String × JVal)

/-- First-match key lookup in a response mapping (Python dict access). -/
def rlookup : RespMap → String → Option JVal
  | [], _ => none
  | (k, v) :: rest, key => if k = key then some v else rlookup rest key

/-- Python `result.get(key, default)`: the stored value when the key is
present, the supplied default otherwise. -/
def rget (r : RespMap) (key : String) (d : JVal) : JVal :=
  (rlookup r key).getD d

/-- Python `len(text_input.split())` (app.py line 346): the number of
whitespace-delimited tokens, runs of whitespace collapsed and empty
tokens dropped. -/
def wordCount (t : String) : Nat :=
  ((t.toList.splitOnP Char.isWhitespace).filter (fun w => w ≠ [])).length

/-- Python `s.lower()`: each character lowercased. -/
def pyLower (s : String) : String :=
  String.mk (s.toList.map Char.toLower)

/-- Python `text_input.count(c)` summed over the three sentence-ending
characters (app.py line 347). -/
def punctCount (t : String) : Nat :=
  (t.toList.filter (fun c => c = '.' || c = '!' || c = '?')).length

/-- Python `punctCount or 1` (app.py line 347): a zero count is replaced
by 1, a nonzero count is kept. -/
def sentenceCountOr1 (t : String) : Nat :=
  if punctCount t = 0 then 1 else punctCount t

/-- The fallback dict built in the except-branch of the analyze handler
(app.py lines 337-348), from the original input text alone. -/
def fallbackResult (text_input : String) : RespMap :=
  [("detected_error", JVal.jstr "None"),
   ("corrected_text", JVal.jstr text_input),
   ("suggestions", JVal.jlist [JVal.jstr "Text appears to be correct"]),
   ("tone", JVal.jstr "Neutral"),
   ("clarity_score", JVal.jnum 7),
   ("vocabulary_enhancements", JVal.jlist []),
   ("explanations", JVal.jlist []),
   ("readability", JVal.jstr "Medium"),
   ("word_count", JVal.jnum (wordCount text_input)),
   ("sentence_count", JVal.jnum (sentenceCountOr1 text_input))]

/-- The per-session state: the three rewrite slots held in
`st.session_state` (`formal_version`, `creative_version`,
`professional_version`). `none` models the Python value `None`. -/
structure AppState where
  formal_version : Option String
  creative_version : Option String
  professional_version : Option String
  deriving DecidableEq, Repr

/-- Outcome of `chain.invoke` (app.py lines 330-333): either a decoded
response mapping or a raised exception. -/
inductive ChainOutcome where
  | ok : RespMap → ChainOutcome
  | exn : ChainOutcome

/-- The five sidebar display toggles (app.py lines 152-156). -/
structure Toggles where
  auto_correct : Bool
  show_suggestions : Bool
  show_explanations : Bool
  show_tone : Bool
  show_vocabulary : Bool

/-- The text handed to the chain (app.py lines 324-326): the input,
prefixed with a bracketed tone directive unless the tone is
"Keep Original". -/
def buildAnalysisText (target_tone text_input : String) : String :=
  if target_tone ≠ "Keep Original" then
    "[Adjust tone to " ++ target_tone ++ "] " ++ text_input
  else text_input

/-- The clear-button handler (app.py lines 307-312): sets all three
rewrite slots to `None`. -/
def clearHandler (_st : AppState) : AppState :=
  ⟨none, none, none⟩

/-- What one run of the analyze-button handler produces. -/
structure AnalyzeOutput where
  state : AppState
  warned : Bool
  chainCalled : Bool
  result : Option RespMap

/-- The analyze-button handler (app.py lines 314-348): the rewrite slots
are reset first (lines 315-318); an empty input is rejected with a
warning before any chain call (lines 320-321); otherwise the chain is
invoked on the tone-adjusted text, and an exception is replaced by the
fallback record built from the original input (lines 329-348). -/
def analyzeHandler (st : AppState) (text_input target_tone : String)
    (chain : String → ChainOutcome) : AnalyzeOutput :=
  let st1 := clearHandler st
  if text_input = "" then
    ⟨st1, true, false, none⟩
  else
    match chain (buildAnalysisText target_tone text_input) with
    | ChainOutcome.ok r => ⟨st1, false, true, some r⟩
    | ChainOutcome.exn => ⟨st1, false, true, some (fallbackResult text_input)⟩

/-
Display readers. The decoded dict is read with per-site defaults via
`result.get`; no validated record is ever constructed (the pydantic
schema at app.py lines 177-187 only supplies format instructions to the
parser at line 201).
-/

/-- App.py line 357: `result.get("word_count", "N/A")`. -/
def displayWordCount (r : RespMap) : JVal := rget r "word_count" (JVal.jstr "N/A")

/-- App.py line 359: `result.get("sentence_count", "N/A")`. -/
def displaySentenceCount (r : RespMap) : JVal := rget r "sentence_count" (JVal.jstr "N/A")

/-- App.py line 361: `result.get("clarity_score", 7)`. -/
def displayClarity (r : RespMap) : JVal := rget r "clarity_score" (JVal.jnum 7)

/-- App.py line 364: `result.get("readability", "Medium")`. -/
def displayReadability (r : RespMap) : JVal := rget r "readability" (JVal.jstr "Medium")

/-- App.py line 378: `result.get("tone", "Neutral")`. -/
def displayTone (r : RespMap) : JVal := rget r "tone" (JVal.jstr "Neutral")

/-- App.py line 409: `result.get("explanations", [])`. -/
def displayExplanations (r : RespMap) : JVal := rget r "explanations" (JVal.jlist [])

/-- App.py line 422: `result.get("vocabulary_enhancements", [])`. -/
def displayVocab (r : RespMap) : JVal := rget r "vocabulary_enhancements" (JVal.jlist [])

/-- App.py line 435: `result.get("suggestions", [])`. -/
def displaySuggestions (r : RespMap) : JVal := rget r "suggestions" (JVal.jlist [])

/-- App.py line 370: `error_type = result.get("detected_error", "Unknown")`. -/
def error_type (r : RespMap) : JVal := rget r "detected_error" (JVal.jstr "Unknown")

/-- App.py line 390: `corrected = result.get("corrected_text", text_input)`. -/
def corrected (r : RespMap) (text_input : String) : JVal :=
  rget r "corrected_text" (JVal.jstr text_input)

/-- App.py line 371: `error_type.lower() == "none"` selects the success
banner; `none` models the `AttributeError` crash when the value is not a
string. -/
def takesNoErrorBranch (r : RespMap) : Option Bool :=
  match error_type r with
  | JVal.jstr s => some (pyLower s == "none")
  | _ => none

/-- The fixed error-category labels named by the prompt (app.py line 215)
together with the no-error label "None" (line 214). -/
def errorCategories : List String :=
  ["Grammar", "Spelling", "Punctuation", "Word Choice", "Slang",
   "Transliteration", "Capitalization", "Missing Words", "Word Order", "None"]

/-- The ten field names of the response schema (app.py lines 177-187). -/
def recognizedKeys : List String :=
  ["detected_error", "corrected_text", "suggestions", "tone",
   "clarity_score", "vocabulary_enhancements", "explanations",
   "readability", "word_count", "sentence_count"]

/-- All ten display reads of a decoded mapping, bundled. -/
def displaysOf (r : RespMap) (text_input : String) :
    JVal × JVal × JVal × JVal × JVal × JVal × JVal × JVal × JVal × JVal :=
  (error_type r, corrected r text_input, displaySuggestions r, displayTone r,
   displayClarity r, displayVocab r, displayExplanations r,
   displayReadability r, displayWordCount r, displaySentenceCount r)

/-- Python truthiness test used at app.py lines 410, 423, 436:
`v and isinstance(v, list) and len(v) > 0` holds exactly of a non-empty
list value. -/
def isNonEmptyList : JVal → Bool
  | JVal.jlist xs => !xs.isEmpty
  | _ => false

/-- Which gated result panels one run renders (app.py lines 377-444), in
page order: the tone banner, the corrected-text box whose styling follows
the auto-correct toggle, and the three list panels shown only when their
toggle is on and the value is a non-empty list. -/
def renderedSections (tog : Toggles) (r : RespMap) : List String :=
  (if tog.show_tone then ["tone"] else []) ++
  (if tog.auto_correct then ["corrected-highlighted"] else ["corrected-plain"]) ++
  (if tog.show_explanations && isNonEmptyList (displayExplanations r) then
    ["explanations"] else []) ++
  (if tog.show_vocabulary && isNonEmptyList (displayVocab r) then
    ["vocabulary"] else []) ++
  (if tog.show_suggestions && isNonEmptyList (displaySuggestions r) then
    ["suggestions"] else [])

/-- A full analyze run as the script executes it: the toggles are read in
the sidebar, the handler computes the result without consulting them, and
the rendering step gates panels by them. -/
def analyzeRun (st : AppState) (text_input target_tone : String) (tog : Toggles)
    (chain : String → ChainOutcome) : AnalyzeOutput × List String :=
  let out := analyzeHandler st text_input target_tone chain
  (out, match out.result with
        | some r => renderedSections tog r
        | none => [])

/-- Outcome of `llm.invoke` on a rewrite prompt: the content of the
completion, or a raised exception with its message. -/
inductive LLMOutcome where
  | ok : String → LLMOutcome
  | exn : String → LLMOutcome

/-- What one rewrite-button handler produces: the new session state and
the error message shown on failure (`none` on success). -/
structure RewriteOutput where
  state : AppState
  errorMsg : Option String

/-- App.py line 464: the formal rewrite prompt around the corrected text. -/
def formal_prompt (c : String) : String :=
  "Rewrite this text in a formal tone while maintaining its meaning. Keep it concise: " ++ c

/-- App.py line 481: the creative rewrite prompt around the corrected text. -/
def creative_prompt (c : String) : String :=
  "Rewrite this text in a creative and engaging way while maintaining its meaning. Keep it concise: " ++ c

/-- App.py line 498: the professional rewrite prompt around the corrected text. -/
def professional_prompt (c : String) : String :=
  "Rewrite this text in a professional business tone while maintaining its meaning. Keep it concise: " ++ c

/-- The formal rewrite handler (app.py lines 461-468): on success the
formal slot is set to the completion content; on exception the state is
untouched and an error message is shown. -/
def formalRewriteHandler (st : AppState) (c : String)
    (llm : String → LLMOutcome) : RewriteOutput :=
  match llm (formal_prompt c) with
  | LLMOutcome.ok content =>
    ⟨⟨some content, st.creative_version, st.professional_version⟩, none⟩
  | LLMOutcome.exn m => ⟨st, some ("Failed to generate formal version: " ++ m)⟩

/-- The creative rewrite handler (app.py lines 478-485). -/
def creativeRewriteHandler (st : AppState) (c : String)
    (llm : String → LLMOutcome) : RewriteOutput :=
  match llm (creative_prompt c) with
  | LLMOutcome.ok content =>
    ⟨⟨st.formal_version, some content, st.professional_version⟩, none⟩
  | LLMOutcome.exn m => ⟨st, some ("Failed to generate creative version: " ++ m)⟩

/-- The professional rewrite handler (app.py lines 495-502). -/
def professionalRewriteHandler (st : AppState) (c : String)
    (llm : String → LLMOutcome) : RewriteOutput :=
  match llm (professional_prompt c) with
  | LLMOutcome.ok content =>
    ⟨⟨st.formal_version, st.creative_version, some content⟩, none⟩
  | LLMOutcome.exn m => ⟨st, some ("Failed to generate professional version: " ++ m)⟩

/-
Concrete artifacts used by counterexamples and witnesses.
-/

/-- A chain that always raises, as when the endpoint or the JSON decode
fails. -/
def chainExn : String → ChainOutcome := fun _ => ChainOutcome.exn

/-- A decoded response that violates the corrected-text relation: it
reports no error yet returns a corrected text different from any input. -/
def badResp : RespMap :=
  [("detected_error", JVal.jstr "None"), ("corrected_text", JVal.jstr "bye")]

/-- A chain that always returns `badResp`. -/
def chainBad : String → ChainOutcome := fun _ => ChainOutcome.ok badResp

/-- A decoded response whose clarity score has the wrong shape (a string
instead of an integer) and which lacks the word-count key. -/
def wrongShapeResp : RespMap := [("clarity_score", JVal.jstr "ten")]

/-- A completion client whose rewrite call always raises. -/
def llmBoom : String → LLMOutcome := fun _ => LLMOutcome.exn "boom"

/-- The Python `or 1` floor equals the max-with-1 phrasing used by the
specification. -/
theorem sentenceCountOr1_eq_max (t : String) :
    sentenceCountOr1 t = max 1 (punctCount t) := by
  by_cases h : punctCount t = 0
  · simp [sentenceCountOr1, h]
  · simp [sentenceCountOr1, h]
    omega

/-- Prepending an entry with a different key leaves a lookup unchanged. -/
theorem rlookup_cons_ne (k : String) (v : JVal) (r : RespMap) (key : String)
    (h : k ≠ key) : rlookup ((k, v) :: r) key = rlookup r key := by
  simp [rlookup, h]

/-- Claim C1: for every non-empty input text, when the chain invocation
raises, the delivered result is exactly the deterministic fallback record
built from the original input alone — detected_error "None", the input as
corrected text, the fixed suggestion list, tone "Neutral", clarity 7,
empty enhancement and explanation lists, readability "Medium", the
whitespace-token word count and the sentence count floored at 1 — even
when a tone directive other than "Keep Original" prefixed the prompt. -/
theorem C1_fallback_on_exception (st : AppState) (t target_tone : String)
    (chain : String → ChainOutcome) (ht : t ≠ "")
    (hc : chain (buildAnalysisText target_tone t) = ChainOutcome.exn) :
    (analyzeHandler st t target_tone chain).result = some (fallbackResult t) ∧
    rlookup (fallbackResult t) "detected_error" = some (JVal.jstr "None") ∧
    rlookup (fallbackResult t) "corrected_text" = some (JVal.jstr t) ∧
    rlookup (fallbackResult t) "suggestions"
      = some (JVal.jlist [JVal.jstr "Text appears to be correct"]) ∧
    rlookup (fallbackResult t) "tone" = some (JVal.jstr "Neutral") ∧
    rlookup (fallbackResult t) "clarity_score" = some (JVal.jnum 7) ∧
    rlookup (fallbackResult t) "vocabulary_enhancements" = some (JVal.jlist []) ∧
    rlookup (fallbackResult t) "explanations" = some (JVal.jlist []) ∧
    rlookup (fallbackResult t) "readability" = some (JVal.jstr "Medium") ∧
    rlookup (fallbackResult t) "word_count" = some (JVal.jnum (wordCount t)) ∧
    rlookup (fallbackResult t) "sentence_count"
      = some (JVal.jnum (max 1 (punctCount t) : Nat)) := by
  refine ⟨?_, rfl, rfl, rfl, rfl, rfl, rfl, rfl, rfl, rfl, ?_⟩
  · simp [analyzeHandler, ht, hc]
  · rw [show rlookup (fallbackResult t) "sentence_count"
        = some (JVal.jnum (sentenceCountOr1 t)) from rfl,
      sentenceCountOr1_eq_max]

/-- Witness for claim C1 at a concrete input and an always-raising chain. -/
theorem C1_fallback_on_exception_witness :
    (analyzeHandler ⟨none, none, none⟩ "Hi there!" "Formal" chainExn).result
      = some (fallbackResult "Hi there!") :=
  (C1_fallback_on_exception ⟨none, none, none⟩ "Hi there!" "Formal" chainExn
    (by decide) rfl).1

/-- Claim C2, counterexample: a clarity score of the wrong shape is passed
through rather than replaced by the stated default 7, and an absent word
count reads as the string "N/A" rather than the stated default 0. -/
theorem C2_wrong_shape_counterexample :
    displayClarity wrongShapeResp = JVal.jstr "ten" ∧
    JVal.jstr "ten" ≠ JVal.jnum 7 ∧
    rlookup wrongShapeResp "word_count" = none ∧
    displayWordCount wrongShapeResp = JVal.jstr "N/A" ∧
    JVal.jstr "N/A" ≠ JVal.jnum 0 :=
  ⟨rfl, fun h => JVal.noConfusion h, rfl, rfl, fun h => JVal.noConfusion h⟩

/-- Claim C2 as amended: each recognized key that is absent from the
decoded mapping is replaced, at the site where the result is read, by that
read site default — clarity 7, tone "Neutral", readability "Medium", the
three list fields empty, corrected text the original input, detected
error "Unknown", word and sentence counts the string "N/A"; a present
value is passed through unchanged even when its shape is wrong;
unrecognized keys are ignored; every read resolves to a concrete value. -/
theorem C2_read_site_defaults (r : RespMap) (t : String) :
    (rlookup r "vocabulary_enhancements" = none → displayVocab r = JVal.jlist []) ∧
    (rlookup r "clarity_score" = none → displayClarity r = JVal.jnum 7) ∧
    (rlookup r "tone" = none → displayTone r = JVal.jstr "Neutral") ∧
    (rlookup r "readability" = none → displayReadability r = JVal.jstr "Medium") ∧
    (rlookup r "suggestions" = none → displaySuggestions r = JVal.jlist []) ∧
    (rlookup r "explanations" = none → displayExplanations r = JVal.jlist []) ∧
    (rlookup r "word_count" = none → displayWordCount r = JVal.jstr "N/A") ∧
    (rlookup r "sentence_count" = none → displaySentenceCount r = JVal.jstr "N/A") ∧
    (rlookup r "detected_error" = none → error_type r = JVal.jstr "Unknown") ∧
    (rlookup r "corrected_text" = none → corrected r t = JVal.jstr t) ∧
    (∀ v, rlookup r "clarity_score" = some v → displayClarity r = v) ∧
    (∀ k v, k ∉ recognizedKeys → displaysOf ((k, v) :: r) t = displaysOf r t) := by
  refine ⟨fun h => by simp [displayVocab, rget, h],
    fun h => by simp [displayClarity, rget, h],
    fun h => by simp [displayTone, rget, h],
    fun h => by simp [displayReadability, rget, h],
    fun h => by simp [displaySuggestions, rget, h],
    fun h => by simp [displayExplanations, rget, h],
    fun h => by simp [displayWordCount, rget, h],
    fun h => by simp [displaySentenceCount, rget, h],
    fun h => by simp [error_type, rget, h],
    fun h => by simp [corrected, rget, h],
    fun v h => by simp [displayClarity, rget, h],
    ?_⟩
  intro k v hk
  simp [recognizedKeys] at hk
  obtain ⟨h1, h2, h3, h4, h5, h6, h7, h8, h9, h10⟩ := hk
  simp [displaysOf, error_type, corrected, displaySuggestions, displayTone,
    displayClarity, displayVocab, displayExplanations, displayReadability,
    displayWordCount, displaySentenceCount, rget,
    rlookup_cons_ne _ _ _ _ h1, rlookup_cons_ne _ _ _ _ h2,
    rlookup_cons_ne _ _ _ _ h3, rlookup_cons_ne _ _ _ _ h4,
    rlookup_cons_ne _ _ _ _ h5, rlookup_cons_ne _ _ _ _ h6,
    rlookup_cons_ne _ _ _ _ h7, rlookup_cons_ne _ _ _ _ h8,
    rlookup_cons_ne _ _ _ _ h9, rlookup_cons_ne _ _ _ _ h10]

/-- Witness for the amended claim C2: the empty mapping defaults the
vocabulary list at its read site. -/
theorem C2_read_site_defaults_witness :
    displayVocab [] = JVal.jlist [] :=
  (C2_read_site_defaults [] "x").1 rfl

/-- Claim C3, counterexample: a decoded response reporting
detected_error "None" together with a corrected text different from the
input "hi" is delivered verbatim, the success banner is chosen, and the
differing corrected text is displayed — nothing rejects or flags it. -/
theorem C3_unflagged_violation_counterexample :
    (analyzeHandler ⟨none, none, none⟩ "hi" "Keep Original" chainBad).result
      = some badResp ∧
    takesNoErrorBranch badResp = some true ∧
    corrected badResp "hi" = JVal.jstr "bye" ∧
    JVal.jstr "bye" ≠ JVal.jstr "hi" := by
  refine ⟨rfl, rfl, rfl, ?_⟩
  intro h
  simp at h

/-- Claim C3 as amended: the interpreter performs no validation of the
relation between detected_error and corrected_text — every successfully
decoded response is delivered verbatim to the presentation surface, and
the success-or-issue branch is chosen from the detected_error value
alone, never from the corrected text; a response with detected_error
"None" and a corrected text differing from the input is rendered
unflagged. -/
theorem C3_no_validation (st : AppState) (t target_tone : String)
    (chain : String → ChainOutcome) (r : RespMap) (ht : t ≠ "")
    (hc : chain (buildAnalysisText target_tone t) = ChainOutcome.ok r) :
    (analyzeHandler st t target_tone chain).result = some r ∧
    (∀ r' : RespMap, rlookup r "detected_error" = rlookup r' "detected_error" →
      takesNoErrorBranch r = takesNoErrorBranch r') := by
  constructor
  · simp [analyzeHandler, ht, hc]
  · intro r' h
    simp [takesNoErrorBranch, error_type, rget, h]

/-- Witness for the amended claim C3 at a concrete violating response. -/
theorem C3_no_validation_witness :
    (analyzeHandler ⟨some "f", none, none⟩ "hi" "Keep Original" chainBad).result
      = some badResp :=
  (C3_no_validation ⟨some "f", none, none⟩ "hi" "Keep Original" chainBad badResp
    (by decide) rfl).1

/-- Claim C4: the explicit clear action and the start of every analysis
request leave all three rewrite slots empty, regardless of prior
content. -/
theorem C4_slots_cleared (st : AppState) (t target_tone : String)
    (chain : String → ChainOutcome) :
    clearHandler st = ⟨none, none, none⟩ ∧
    (analyzeHandler st t target_tone chain).state = ⟨none, none, none⟩ := by
  refine ⟨rfl, ?_⟩
  unfold analyzeHandler
  by_cases h : t = ""
  · simp [h, clearHandler]
  · cases hch : chain (buildAnalysisText target_tone t) <;>
      simp [h, hch, clearHandler]

/-- Claim C5: a rewrite completion call that raises leaves the whole
session state unchanged — the targeted slot keeps its prior value and the
other two slots are untouched — and surfaces a user-visible failure
message; a slot is assigned exactly when its completion call returns
successfully. -/
theorem C5_rewrite_failure_isolation (st : AppState) (c : String)
    (llm : String → LLMOutcome) :
    (∀ m, llm (formal_prompt c) = LLMOutcome.exn m →
      formalRewriteHandler st c llm
        = ⟨st, some ("Failed to generate formal version: " ++ m)⟩) ∧
    (∀ m, llm (creative_prompt c) = LLMOutcome.exn m →
      creativeRewriteHandler st c llm
        = ⟨st, some ("Failed to generate creative version: " ++ m)⟩) ∧
    (∀ m, llm (professional_prompt c) = LLMOutcome.exn m →
      professionalRewriteHandler st c llm
        = ⟨st, some ("Failed to generate professional version: " ++ m)⟩) ∧
    (∀ content, llm (formal_prompt c) = LLMOutcome.ok content →
      formalRewriteHandler st c llm
        = ⟨⟨some content, st.creative_version, st.professional_version⟩, none⟩) ∧
    (∀ content, llm (creative_prompt c) = LLMOutcome.ok content →
      creativeRewriteHandler st c llm
        = ⟨⟨st.formal_version, some content, st.professional_version⟩, none⟩) ∧
    (∀ content, llm (professional_prompt c) = LLMOutcome.ok content →
      professionalRewriteHandler st c llm
        = ⟨⟨st.formal_version, st.creative_version, some content⟩, none⟩) := by
  refine ⟨fun m h => ?_, fun m h => ?_, fun m h => ?_,
    fun content h => ?_, fun content h => ?_, fun content h => ?_⟩ <;>
    simp [formalRewriteHandler, creativeRewriteHandler,
      professionalRewriteHandler, h]

/-- Witness for claim C5: a raising rewrite call at a concrete populated
state keeps all three slots and reports the failure. -/
theorem C5_rewrite_failure_isolation_witness :
    formalRewriteHandler ⟨some "a", some "b", some "c"⟩ "text" llmBoom
      = ⟨⟨some "a", some "b", some "c"⟩,
         some ("Failed to generate formal version: " ++ "boom")⟩ :=
  (C5_rewrite_failure_isolation ⟨some "a", some "b", some "c"⟩ "text"
    llmBoom).1 "boom" rfl

/-- Claim C6: an analysis request with empty input text is rejected with a
user-visible warning before any completion-endpoint call, and no analysis
result is produced. -/
theorem C6_empty_input_short_circuit (st : AppState) (target_tone : String)
    (chain : String → ChainOutcome) :
    (analyzeHandler st "" target_tone chain).warned = true ∧
    (analyzeHandler st "" target_tone chain).chainCalled = false ∧
    (analyzeHandler st "" target_tone chain).result = none :=
  ⟨rfl, rfl, rfl⟩

/-- Claim C7: two analysis runs differing only in the five boolean display
toggles compute identical handler output — session state, warning flag,
endpoint use and delivered result — the toggles only gate which panels of
the already-computed result are rendered. -/
theorem C7_toggle_noninterference (st : AppState) (t target_tone : String)
    (chain : String → ChainOutcome) (tog tog' : Toggles) :
    (analyzeRun st t target_tone tog chain).1
      = (analyzeRun st t target_tone tog' chain).1 := rfl

/-- Claim C8: the analyze handler resets the three rewrite slots before
the empty-input guard, so a submission with empty text — warned about and
triggering no endpoint call — still erases previously cached rewrites. -/
theorem C8_reset_before_guard (st : AppState) (target_tone : String)
    (chain : String → ChainOutcome) :
    (analyzeHandler st "" target_tone chain).state = ⟨none, none, none⟩ ∧
    (analyzeHandler st "" target_tone chain).warned = true ∧
    (analyzeHandler st "" target_tone chain).chainCalled = false :=
  ⟨rfl, rfl, rfl⟩

/-- Claim C9: the no-error success branch is taken exactly when the
lowercased detected_error value equals "none", so any casing counts; when
the key is absent the substituted label is "Unknown", which lies outside
the fixed category set, differs from "None", and sends the run down the
issue-detected branch. -/
theorem C9_error_branch_dispatch (r : RespMap) :
    (∀ s, rlookup r "detected_error" = some (JVal.jstr s) →
      takesNoErrorBranch r = some (pyLower s == "none")) ∧
    (rlookup r "detected_error" = none →
      error_type r = JVal.jstr "Unknown" ∧
      "Unknown" ∉ errorCategories ∧
      "Unknown" ≠ "None" ∧
      takesNoErrorBranch r = some false) := by
  constructor
  · intro s h
    simp [takesNoErrorBranch, error_type, rget, h]
  · intro h
    refine ⟨by simp [error_type, rget, h], by decide, by decide, ?_⟩
    simp [takesNoErrorBranch, error_type, rget, h]
    decide

/-- Witness for claim C9: a mapping reporting detected_error "NONE" takes
the success branch, and the empty mapping takes the issue branch under the
label "Unknown". -/
theorem C9_error_branch_dispatch_witness :
    takesNoErrorBranch [("detected_error", JVal.jstr "NONE")] = some true ∧
    takesNoErrorBranch [] = some false :=
  ⟨(C9_error_branch_dispatch [("detected_error", JVal.jstr "NONE")]).1
      "NONE" rfl,
    ((C9_error_branch_dispatch []).2 rfl).2.2.2⟩

/-- Claim C10: when the decoded result lacks the corrected_text key, the
corrected value that is displayed and embedded in the three rewrite
prompts defaults to the original input text, which appears verbatim at
the end of each prompt. -/
theorem C10_corrected_default (r : RespMap) (t : String)
    (h : rlookup r "corrected_text" = none) :
    corrected r t = JVal.jstr t ∧
    formal_prompt t
      = "Rewrite this text in a formal tone while maintaining its meaning. Keep it concise: " ++ t ∧
    creative_prompt t
      = "Rewrite this text in a creative and engaging way while maintaining its meaning. Keep it concise: " ++ t ∧
    professional_prompt t
      = "Rewrite this text in a professional business tone while maintaining its meaning. Keep it concise: " ++ t :=
  ⟨by simp [corrected, rget, h], rfl, rfl, rfl⟩

/-- Witness for claim C10 at a mapping without the corrected_text key. -/
theorem C10_corrected_default_witness :
    corrected [("detected_error", JVal.jstr "None")] "hello"
      = JVal.jstr "hello" :=
  (C10_corrected_default [("detected_error", JVal.jstr "None")] "hello" rfl).1

end Hinglishly
